import Mathlib

/- A shallow embedding of the template semantics checker of an Angular
compiler tree (template_semantics_checker.ts) together with the
deprecated-usages source-file validation rule (deprecated_usages_rule.ts),
followed by theorems about the diagnostics the checker emits.

The TypeScript checker mutates a shared diagnostics array through
`this.diagnostics.push(...)`; the embedding renders every visitor as a pure
function returning the list of diagnostics it pushes, in push order.  Object
reference identity on expression nodes is rendered as structural equality,
which is adequate here because every comparison performed by the source
compares a node of a handler tree against the root of that same tree, and in
a finite tree a strict subterm is never structurally equal to the whole. -/

/-- Source location (models ParseLocation): the owning source file, given by
its file name, plus a character offset. -/
structure ParseLocation where
  file : String
  offset : Nat
deriving DecidableEq, Repr

/-- Source span (models ParseSourceSpan): start and end locations.  The
TypeScript `end` field is called `stop` because `end` is a Lean keyword. -/
structure ParseSourceSpan where
  start : ParseLocation
  stop : ParseLocation
deriving DecidableEq, Repr

/-- Models ts.ClassDeclaration; the checker only ever calls getSourceFile()
on it, so the component is represented by its source file name. -/
structure ClassDeclaration where
  sourceFile : String
deriving DecidableEq, Repr

/-- Models ts.Node.getSourceFile(), the owning source file of the node. -/
def ClassDeclaration.getSourceFile (c : ClassDeclaration) : String :=
  c.sourceFile

/-- Expression AST (models the @angular/compiler expression classes the
checker can meet): ASTWithSource wrappers, ImplicitReceiver, PropertyRead,
PropertyWrite, a representative compound node Binary and a representative
leaf LiteralPrimitive. -/
inductive AST where
  | astWithSource (ast : AST)
  | implicitReceiver
  | literalPrimitive
  | propertyRead (receiver : AST) (name : String)
  | propertyWrite (receiver : AST) (name : String) (value : AST)
  | binary (left : AST) (right : AST)
deriving DecidableEq, Repr

/-- unwrapAstWithSource (source lines 193-195): strip a top-level
ASTWithSource wrapper, if any. -/
def unwrapAstWithSource (ast : AST) : AST :=
  match ast with
  | AST.astWithSource a => a
  | _ => ast

/-- Models ParsedEventType; the checker only distinguishes TwoWay. -/
inductive ParsedEventType where
  | Regular
  | Animation
  | TwoWay
deriving DecidableEq, Repr

/-- Models TmplAstVariable (a structural-directive template variable), with
the fields the checker reads: name, sourceSpan, and the optional valueSpan
(undefined is rendered as none). -/
structure TmplAstVariable where
  name : String
  sourceSpan : ParseSourceSpan
  valueSpan : Option ParseSourceSpan
deriving DecidableEq, Repr

/-- Models TmplAstLetDeclaration (an @let declaration), with the fields the
checker reads: name and sourceSpan. -/
structure TmplAstLetDeclaration where
  name : String
  sourceSpan : ParseSourceSpan
deriving DecidableEq, Repr

/-- Models TmplAstBoundEvent: the binding kind tag, the handler expression
and the handler's full source span. -/
structure TmplAstBoundEvent where
  type : ParsedEventType
  handler : AST
  handlerSpan : ParseSourceSpan
deriving DecidableEq, Repr

/-- Models TmplAstBoundAttribute: a property binding with a value
expression. -/
structure TmplAstBoundAttribute where
  value : AST
deriving DecidableEq, Repr

/-- Structural template node tree (models TmplAstNode).  Elements and
templates are the containers; bound attributes and events also occur inside
their `inputs`/`outputs` lists, the way the @angular/compiler AST stores
them. -/
inductive TmplAstNode where
  | element (inputs : List TmplAstBoundAttribute) (outputs : List TmplAstBoundEvent)
      (children : List TmplAstNode)
  | template (inputs : List TmplAstBoundAttribute) (outputs : List TmplAstBoundEvent)
      (vars : List TmplAstVariable) (children : List TmplAstNode)
  | boundAttribute (attr : TmplAstBoundAttribute)
  | boundEvent (event : TmplAstBoundEvent)
  | variable (v : TmplAstVariable)
  | letDeclaration (l : TmplAstLetDeclaration)
  | text
deriving Repr

/-- Result of TemplateTypeChecker.getExpressionTarget: the template entity an
expression resolves to - a TmplAstVariable, a TmplAstLetDeclaration, or some
other template entity (e.g. a reference).  A null return of the service is
rendered as `none` at the use sites. -/
inductive TemplateEntity where
  | variable (v : TmplAstVariable)
  | letDeclaration (l : TmplAstLetDeclaration)
  | reference
deriving DecidableEq, Repr

/-- Modelled from the spec: the symbol returned by the resolution service
matters to the checker only through its reactive (signal) capability
classification, so it is rendered as that one bit. -/
structure TcSymbol where
  isSignal : Bool
deriving DecidableEq, Repr

/-- Modelled from the spec: isSignalReference (symbol_util.ts, outside the
provided sources) reports whether a resolved symbol is reactive-capable,
i.e. a signal reference. -/
def isSignalReference (symbol : TcSymbol) : Bool :=
  symbol.isSignal

/-- Modelled from the spec: the narrow interface of the external
type-checking / symbol-resolution service that the checker consumes.  Each
TypeScript method returning `T | null` is rendered as `Option T`. -/
structure TemplateTypeChecker where
  getTemplate : ClassDeclaration → Option (List TmplAstNode)
  getExpressionTarget : AST → ClassDeclaration → Option TemplateEntity
  getSymbolOfNode : TemplateEntity → ClassDeclaration → Option TcSymbol

/-- Models ts.DiagnosticCategory. -/
inductive DiagnosticCategory where
  | warning
  | error
  | suggestion
  | message
deriving DecidableEq, Repr

/-- One related-location entry of a template diagnostic: text, start and end
offsets, and the owning source file - exactly the record literal built at
source lines 168-173. -/
structure DiagnosticRelatedInfo where
  text : String
  start : Nat
  stop : Nat
  sourceFile : String
deriving DecidableEq, Repr

/-- A template diagnostic, as assembled by the diagnostic factory from the
component, primary span, category, code, message and related locations. -/
structure TemplateDiagnostic where
  componentFile : String
  span : ParseSourceSpan
  category : DiagnosticCategory
  code : Int
  messageText : String
  relatedInformation : List DiagnosticRelatedInfo
deriving DecidableEq, Repr

/-- Modelled from the spec: the fixed stable error code identifying a write
to a read-only template variable.  The numeric value stands in for the one
in the diagnostics package, which is outside the provided sources; nothing
below depends on the value, only on its fixedness. -/
def ErrorCode.WRITE_TO_READ_ONLY_VARIABLE : Nat :=
  8005

/-- Modelled from the spec: ngErrorCode maps an ErrorCode to the fixed
negative code surfaced to the host (the string concatenation of "-99" with
the four-digit code). -/
def ngErrorCode (code : Nat) : Int :=
  -(990000 + (code : Int))

/-- Modelled from the spec: makeTemplateDiagnostic of the external
type-checking service builds a structured diagnostic recording exactly the
severity, code, message, primary span and related-location data it is
given, on behalf of the given component. -/
def TemplateTypeChecker.makeTemplateDiagnostic (component : ClassDeclaration)
    (span : ParseSourceSpan) (category : DiagnosticCategory) (code : Int)
    (messageText : String) (relatedInformation : List DiagnosticRelatedInfo) :
    TemplateDiagnostic :=
  { componentFile := component.getSourceFile
    span := span
    category := category
    code := code
    messageText := messageText
    relatedInformation := relatedInformation }

/-- The union type `TmplAstVariable | TmplAstLetDeclaration` taken by
makeIllegalTemplateVarDiagnostic. -/
inductive VarOrLet where
  | variable (v : TmplAstVariable)
  | letDecl (l : TmplAstLetDeclaration)
deriving DecidableEq, Repr

/-- The `name` property shared by both branches of the union. -/
def VarOrLet.name : VarOrLet → String
  | VarOrLet.variable v => v.name
  | VarOrLet.letDecl l => l.name

/-- Span selection of source lines 159-160: a variable's valueSpan when
present, else its sourceSpan (`target.valueSpan || target.sourceSpan`); a
let declaration's sourceSpan. -/
def VarOrLet.declSpan : VarOrLet → ParseSourceSpan
  | VarOrLet.variable v => v.valueSpan.getD v.sourceSpan
  | VarOrLet.letDecl l => l.sourceSpan

/-- Error message of Rule A (source line 115). -/
def ruleAErrorMessage (name : String) : String :=
  s!"Cannot use variable '{name}' as the left-hand side of an assignment expression. Template variables are read-only."

/-- Error message of Rule B for a template variable target (source line 145). -/
def twoWayVariableErrorMessage (name : String) : String :=
  s!"Cannot use a non-signal variable '{name}' in a two-way binding expression. Template variables are read-only."

/-- Error message of Rule B for an @let declaration target (source line 147). -/
def twoWayLetErrorMessage (name : String) : String :=
  s!"Cannot use non-signal @let declaration '{name}' in a two-way binding expression. @let declarations are read-only."

/-- makeIllegalTemplateVarDiagnostic (source lines 154-176): an Error
diagnostic with the fixed write-to-read-only-variable code, the given
message, the enclosing event's handlerSpan as primary span, and one related
location pointing at the declaration, anchored to the component's source
file. -/
def ExpressionsSemanticsVisitor.makeIllegalTemplateVarDiagnostic
    (component : ClassDeclaration) (target : VarOrLet)
    (expressionNode : TmplAstBoundEvent) (errorMessage : String) :
    TemplateDiagnostic :=
  TemplateTypeChecker.makeTemplateDiagnostic component expressionNode.handlerSpan
    DiagnosticCategory.error (ngErrorCode ErrorCode.WRITE_TO_READ_ONLY_VARIABLE)
    errorMessage
    [{ text := s!"'{target.name}' is declared here."
       start := target.declSpan.start.offset
       stop := target.declSpan.stop.offset
       sourceFile := component.getSourceFile }]

/-- checkForIllegalWriteInEventBinding (source lines 108-118, Rule A): for a
PropertyWrite with an ImplicitReceiver receiver met while the context is a
TmplAstBoundEvent, a write whose target resolves to a TmplAstVariable pushes
one read-only-variable diagnostic; anything else pushes nothing. -/
def ExpressionsSemanticsVisitor.checkForIllegalWriteInEventBinding
    (tc : TemplateTypeChecker) (component : ClassDeclaration)
    (ast : AST) (context : TmplAstNode) : List TemplateDiagnostic :=
  match context, ast with
  | TmplAstNode.boundEvent e, AST.propertyWrite AST.implicitReceiver _ _ =>
    match tc.getExpressionTarget ast component with
    | some (TemplateEntity.variable target) =>
      [ExpressionsSemanticsVisitor.makeIllegalTemplateVarDiagnostic component
        (VarOrLet.variable target) e (ruleAErrorMessage target.name)]
    | _ => []
  | _, _ => []

/-- checkForIllegalWriteInTwoWayBinding (source lines 120-152, Rule B): only
a top-level PropertyRead with an ImplicitReceiver receiver, met while the
context is a two-way TmplAstBoundEvent and equal to the unwrapped handler
root, is checked; a target that is a variable or @let declaration whose
resolved symbol exists and is not a signal reference pushes one diagnostic
with the matching wording. -/
def ExpressionsSemanticsVisitor.checkForIllegalWriteInTwoWayBinding
    (tc : TemplateTypeChecker) (component : ClassDeclaration)
    (ast : AST) (context : TmplAstNode) : List TemplateDiagnostic :=
  match context, ast with
  | TmplAstNode.boundEvent e, AST.propertyRead AST.implicitReceiver _ =>
    if e.type = ParsedEventType.TwoWay ∧ ast = unwrapAstWithSource e.handler then
      match tc.getExpressionTarget ast component with
      | some (TemplateEntity.variable target) =>
        match tc.getSymbolOfNode (TemplateEntity.variable target) component with
        | some symbol =>
          if isSignalReference symbol then []
          else
            [ExpressionsSemanticsVisitor.makeIllegalTemplateVarDiagnostic component
              (VarOrLet.variable target) e (twoWayVariableErrorMessage target.name)]
        | none => []
      | some (TemplateEntity.letDeclaration target) =>
        match tc.getSymbolOfNode (TemplateEntity.letDeclaration target) component with
        | some symbol =>
          if isSignalReference symbol then []
          else
            [ExpressionsSemanticsVisitor.makeIllegalTemplateVarDiagnostic component
              (VarOrLet.letDecl target) e (twoWayLetErrorMessage target.name)]
        | none => []
      | _ => []
    else []
  | _, _ => []

/-- ExpressionsSemanticsVisitor as a pure traversal (source lines 89-106
together with the inherited RecursiveAstVisitor recursion, modelled from the
spec's depth-first contract): children are visited first via the super
calls, then the node's own rule check runs, so child diagnostics precede the
node's. -/
def ExpressionsSemanticsVisitor.visit (tc : TemplateTypeChecker)
    (component : ClassDeclaration) (context : TmplAstNode) :
    AST → List TemplateDiagnostic
  | AST.astWithSource inner =>
    ExpressionsSemanticsVisitor.visit tc component context inner
  | AST.implicitReceiver => []
  | AST.literalPrimitive => []
  | AST.binary left right =>
    ExpressionsSemanticsVisitor.visit tc component context left ++
      ExpressionsSemanticsVisitor.visit tc component context right
  | AST.propertyRead receiver name =>
    ExpressionsSemanticsVisitor.visit tc component context receiver ++
      ExpressionsSemanticsVisitor.checkForIllegalWriteInTwoWayBinding tc component
        (AST.propertyRead receiver name) context
  | AST.propertyWrite receiver name value =>
    ExpressionsSemanticsVisitor.visit tc component context receiver ++
      ExpressionsSemanticsVisitor.visit tc component context value ++
      ExpressionsSemanticsVisitor.checkForIllegalWriteInEventBinding tc component
        (AST.propertyWrite receiver name value) context

/-- DeprecatedSemanticsVisitor.visitAll override (source lines 188-190): its
body performs no work. -/
def DeprecatedSemanticsVisitor.visitAll (_asts : List AST)
    (_context : TmplAstNode) : List TemplateDiagnostic :=
  []

/-- DeprecatedSemanticsVisitor as a pure traversal (source lines 179-191):
the class overrides only visitAll, with an empty body, and inherits the
RecursiveAstVisitor recursion for everything else; no method of the class
pushes a diagnostic, so every case only concatenates what the children
produce. -/
def DeprecatedSemanticsVisitor.visit (context : TmplAstNode) :
    AST → List TemplateDiagnostic
  | AST.astWithSource inner => DeprecatedSemanticsVisitor.visit context inner
  | AST.implicitReceiver => []
  | AST.literalPrimitive => []
  | AST.binary left right =>
    DeprecatedSemanticsVisitor.visit context left ++
      DeprecatedSemanticsVisitor.visit context right
  | AST.propertyRead receiver _ => DeprecatedSemanticsVisitor.visit context receiver
  | AST.propertyWrite receiver _ value =>
    DeprecatedSemanticsVisitor.visit context receiver ++
      DeprecatedSemanticsVisitor.visit context value

/-- TemplateSemanticsVisitor.visitBoundAttribute override (source lines
76-79): the super call performs the default (childless) traversal, then the
attribute's value expression is dispatched to the deprecated visitor with
the attribute as context. -/
def TemplateSemanticsVisitor.visitBoundAttribute (_tc : TemplateTypeChecker)
    (_component : ClassDeclaration) (attr : TmplAstBoundAttribute) :
    List TemplateDiagnostic :=
  DeprecatedSemanticsVisitor.visit (TmplAstNode.boundAttribute attr) attr.value

/-- TemplateSemanticsVisitor.visitBoundEvent override (source lines 81-85):
after the default super call, the handler expression is dispatched first to
the expression semantics visitor and then to the deprecated visitor, both
with the event as context. -/
def TemplateSemanticsVisitor.visitBoundEvent (tc : TemplateTypeChecker)
    (component : ClassDeclaration) (event : TmplAstBoundEvent) :
    List TemplateDiagnostic :=
  ExpressionsSemanticsVisitor.visit tc component (TmplAstNode.boundEvent event)
      event.handler ++
    DeprecatedSemanticsVisitor.visit (TmplAstNode.boundEvent event) event.handler

/-- Walk of an element's or template's bound-attribute inputs (models
visitAll over the inputs list, dispatching each to visitBoundAttribute). -/
def TemplateSemanticsVisitor.visitAttributes (tc : TemplateTypeChecker)
    (component : ClassDeclaration) (inputs : List TmplAstBoundAttribute) :
    List TemplateDiagnostic :=
  (inputs.map (TemplateSemanticsVisitor.visitBoundAttribute tc component)).flatten

/-- Walk of an element's or template's bound-event outputs (models visitAll
over the outputs list, dispatching each to visitBoundEvent). -/
def TemplateSemanticsVisitor.visitEvents (tc : TemplateTypeChecker)
    (component : ClassDeclaration) (outputs : List TmplAstBoundEvent) :
    List TemplateDiagnostic :=
  (outputs.map (TemplateSemanticsVisitor.visitBoundEvent tc component)).flatten

mutual

/-- Structural walk of one template node (TemplateSemanticsVisitor together
with the inherited TmplAstRecursiveVisitor recursion; the latter is outside
the provided sources and is modelled from the spec: every node is visited
once, depth-first in document order, descending into the containers'
inputs, outputs and children; leaf node kinds produce nothing of their
own). -/
def TemplateSemanticsVisitor.visitNode (tc : TemplateTypeChecker)
    (component : ClassDeclaration) : TmplAstNode → List TemplateDiagnostic
  | TmplAstNode.element inputs outputs children =>
    TemplateSemanticsVisitor.visitAttributes tc component inputs ++
      TemplateSemanticsVisitor.visitEvents tc component outputs ++
      TemplateSemanticsVisitor.visitNodes tc component children
  | TmplAstNode.template inputs outputs _vars children =>
    TemplateSemanticsVisitor.visitAttributes tc component inputs ++
      TemplateSemanticsVisitor.visitEvents tc component outputs ++
      TemplateSemanticsVisitor.visitNodes tc component children
  | TmplAstNode.boundAttribute attr =>
    TemplateSemanticsVisitor.visitBoundAttribute tc component attr
  | TmplAstNode.boundEvent event =>
    TemplateSemanticsVisitor.visitBoundEvent tc component event
  | TmplAstNode.variable _ => []
  | TmplAstNode.letDeclaration _ => []
  | TmplAstNode.text => []

/-- Walk of a node list (models visitAll over TmplAstNode children). -/
def TemplateSemanticsVisitor.visitNodes (tc : TemplateTypeChecker)
    (component : ClassDeclaration) : List TmplAstNode → List TemplateDiagnostic
  | [] => []
  | n :: rest =>
    TemplateSemanticsVisitor.visitNode tc component n ++
      TemplateSemanticsVisitor.visitNodes tc component rest

end



/-- TemplateSemanticsVisitor.visit (source lines 53-74): allocate a fresh
diagnostics list, construct fresh visitor instances scoped to this component
and sink, walk every root node, and return the accumulated diagnostics. -/
def TemplateSemanticsVisitor.visit (nodes : List TmplAstNode)
    (component : ClassDeclaration) (templateTypeChecker : TemplateTypeChecker) :
    List TemplateDiagnostic :=
  TemplateSemanticsVisitor.visitNodes templateTypeChecker component nodes

/-- TemplateSemanticsCheckerImpl.getDiagnosticsForComponent (source lines
35-41): a component without a template yields the empty list, otherwise the
walker's result over the template's node sequence. -/
def TemplateSemanticsCheckerImpl.getDiagnosticsForComponent
    (templateTypeChecker : TemplateTypeChecker) (component : ClassDeclaration) :
    List TemplateDiagnostic :=
  match templateTypeChecker.getTemplate component with
  | some template => TemplateSemanticsVisitor.visit template component templateTypeChecker
  | none => []

/-- Models ts.Node for the deprecated-usages rule, which never inspects its
input. -/
structure TsNode where
  kind : Nat
deriving DecidableEq, Repr

/-- Models ts.Diagnostic as far as the deprecated-usages rule's signature
needs (the rule never actually builds one). -/
structure TsDiagnostic where
  messageText : String
deriving DecidableEq, Repr

/-- DeprecatedUsagesRule.checkNode (deprecated_usages_rule.ts): the body
unconditionally throws `Error('not implemented')`.  The fallible TypeScript
method returning `Diagnostic | Diagnostic[] | null` is rendered as an Except
whose success payload is the optional diagnostics list. -/
def DeprecatedUsagesRule.checkNode (_node : TsNode) :
    Except String (Option (List TsDiagnostic)) :=
  Except.error "not implemented"

/-- One-step subterm relation on expression nodes: the first node is a
direct child of the second, i.e. one of the operands the inherited
RecursiveAstVisitor recursion descends into. -/
inductive ChildOf : AST → AST → Prop
  | wrap (a : AST) : ChildOf a (AST.astWithSource a)
  | readReceiver (r : AST) (n : String) : ChildOf r (AST.propertyRead r n)
  | writeReceiver (r : AST) (n : String) (v : AST) :
      ChildOf r (AST.propertyWrite r n v)
  | writeValue (r : AST) (n : String) (v : AST) :
      ChildOf v (AST.propertyWrite r n v)
  | binaryLeft (l r : AST) : ChildOf l (AST.binary l r)
  | binaryRight (l r : AST) : ChildOf r (AST.binary l r)

/-- A strictly nested subexpression: one or more child steps down.  This is
what "a read buried inside a larger handler expression" means; in the tree
model such a node is never the handler root itself. -/
def NestedIn (a b : AST) : Prop :=
  Relation.TransGen ChildOf a b

/-- Fixture: the component class, owned by the file app.ts. -/
def cmpS : ClassDeclaration :=
  ⟨"app.ts"⟩

/-- Fixture: full declaration span of a template declaration, living in the
external template file tmpl.html. -/
def declSpanS : ParseSourceSpan :=
  ⟨⟨"tmpl.html", 10⟩, ⟨"tmpl.html", 20⟩⟩

/-- Fixture: value-initializer span of the same declaration. -/
def valueSpanS : ParseSourceSpan :=
  ⟨⟨"tmpl.html", 15⟩, ⟨"tmpl.html", 18⟩⟩

/-- Fixture: span of an event handler expression. -/
def handlerSpanS : ParseSourceSpan :=
  ⟨⟨"tmpl.html", 100⟩, ⟨"tmpl.html", 110⟩⟩

/-- Fixture: a template variable named x with both spans present. -/
def varS : TmplAstVariable :=
  ⟨"x", declSpanS, some valueSpanS⟩

/-- Fixture: an @let declaration named y. -/
def letS : TmplAstLetDeclaration :=
  ⟨"y", declSpanS⟩

/-- Fixture: a bare implicit-receiver read of x. -/
def readXS : AST :=
  AST.propertyRead AST.implicitReceiver "x"

/-- Fixture: a two-way bound event whose handler is the wrapped bare read of
x. -/
def evtTwoWayS : TmplAstBoundEvent :=
  ⟨ParsedEventType.TwoWay, AST.astWithSource readXS, handlerSpanS⟩

/-- Fixture: a regular bound event whose handler assigns to x. -/
def evtRegularS : TmplAstBoundEvent :=
  ⟨ParsedEventType.Regular,
    AST.astWithSource (AST.propertyWrite AST.implicitReceiver "x" AST.literalPrimitive),
    handlerSpanS⟩

/-- Fixture: a two-way bound event whose handler nests the read of x inside
a larger (binary) expression. -/
def evtNestedS : TmplAstBoundEvent :=
  ⟨ParsedEventType.TwoWay, AST.astWithSource (AST.binary readXS AST.literalPrimitive),
    handlerSpanS⟩

/-- Fixture: a resolution service that resolves every expression to the
template variable x, classified as not a signal, over a one-element template
containing the two-way event. -/
def tcVarS : TemplateTypeChecker :=
  ⟨fun _ => some [TmplAstNode.element [] [evtTwoWayS] []],
   fun _ _ => some (TemplateEntity.variable varS),
   fun _ _ => some ⟨false⟩⟩

/-- Fixture: a resolution service that resolves every expression to the @let
declaration y, classified as not a signal. -/
def tcLetS : TemplateTypeChecker :=
  ⟨fun _ => some [TmplAstNode.element [] [evtTwoWayS] []],
   fun _ _ => some (TemplateEntity.letDeclaration letS),
   fun _ _ => some ⟨false⟩⟩

/-- Fixture: a resolution service with no template and no resolutions. -/
def tcNoneS : TemplateTypeChecker :=
  ⟨fun _ => none, fun _ _ => none, fun _ _ => none⟩

/-- Fixture: a resolution service like tcVarS but classifying the resolved
variable as a signal. -/
def tcSigS : TemplateTypeChecker :=
  ⟨fun _ => some [TmplAstNode.element [] [evtTwoWayS] []],
   fun _ _ => some (TemplateEntity.variable varS),
   fun _ _ => some ⟨true⟩⟩

/-- Fixture: a resolution service that resolves expressions to the template
variable x but returns no symbol for it. -/
def tcNoSymS : TemplateTypeChecker :=
  ⟨fun _ => some [TmplAstNode.element [] [evtTwoWayS] []],
   fun _ _ => some (TemplateEntity.variable varS),
   fun _ _ => none⟩

theorem childOf_sizeOf_lt {a b : AST} (h : ChildOf a b) : sizeOf a < sizeOf b := by
  cases h <;> simp <;> omega

theorem nestedIn_sizeOf_lt {a b : AST} (h : NestedIn a b) : sizeOf a < sizeOf b := by
  induction h with
  | single h => exact childOf_sizeOf_lt h
  | tail _ h ih => exact ih.trans (childOf_sizeOf_lt h)

/-- A strictly nested subexpression is never the whole expression. -/
theorem NestedIn.ne {a b : AST} (h : NestedIn a b) : a ≠ b := by
  intro heq
  exact absurd (nestedIn_sizeOf_lt h) (by rw [heq]; exact lt_irrefl _)

/-- The deprecated semantics visitor pushes nothing at any node: its only
override has an empty body and every inherited method only recurses. -/
theorem deprecatedVisit_eq_nil (context : TmplAstNode) (ast : AST) :
    DeprecatedSemanticsVisitor.visit context ast = [] := by
  induction ast <;> simp [DeprecatedSemanticsVisitor.visit, *]

/-- Any diagnostic Rule A pushes is an illegal-template-variable diagnostic
for a variable target, built against the enclosing bound event. -/
theorem mem_checkForIllegalWriteInEventBinding {tc : TemplateTypeChecker}
    {cmp : ClassDeclaration} {ast : AST} {context : TmplAstNode}
    {d : TemplateDiagnostic}
    (hd : d ∈ ExpressionsSemanticsVisitor.checkForIllegalWriteInEventBinding tc cmp
            ast context) :
    ∃ e v, context = TmplAstNode.boundEvent e ∧
      d = ExpressionsSemanticsVisitor.makeIllegalTemplateVarDiagnostic cmp
            (VarOrLet.variable v) e (ruleAErrorMessage v.name) := by
  unfold ExpressionsSemanticsVisitor.checkForIllegalWriteInEventBinding at hd
  split at hd
  case _ e _ _ =>
    split at hd
    case _ target heq =>
      simp only [List.mem_singleton] at hd
      exact ⟨e, target, rfl, hd⟩
    case _ => simp at hd
  case _ => simp at hd

/-- Any diagnostic Rule B pushes is an illegal-template-variable diagnostic
built against the enclosing bound event. -/
theorem mem_checkForIllegalWriteInTwoWayBinding {tc : TemplateTypeChecker}
    {cmp : ClassDeclaration} {ast : AST} {context : TmplAstNode}
    {d : TemplateDiagnostic}
    (hd : d ∈ ExpressionsSemanticsVisitor.checkForIllegalWriteInTwoWayBinding tc cmp
            ast context) :
    ∃ e t msg, context = TmplAstNode.boundEvent e ∧
      d = ExpressionsSemanticsVisitor.makeIllegalTemplateVarDiagnostic cmp t e msg := by
  unfold ExpressionsSemanticsVisitor.checkForIllegalWriteInTwoWayBinding at hd
  split at hd
  case _ e _ =>
    split at hd
    · split at hd
      case _ target heq =>
        split at hd
        case _ symbol hsym =>
          split at hd
          · simp at hd
          · simp only [List.mem_singleton] at hd
            exact ⟨e, VarOrLet.variable target, _, rfl, hd⟩
        case _ => simp at hd
      case _ target heq =>
        split at hd
        case _ symbol hsym =>
          split at hd
          · simp at hd
          · simp only [List.mem_singleton] at hd
            exact ⟨e, VarOrLet.letDecl target, _, rfl, hd⟩
        case _ => simp at hd
      case _ => simp at hd
    · simp at hd
  case _ => simp at hd

/-- Every diagnostic the expression semantics visitor produces comes from
one of the two rule checks, Rule A or Rule B, applied to a node visited with
the same context. -/
theorem mem_exprVisit (tc : TemplateTypeChecker) (cmp : ClassDeclaration)
    (context : TmplAstNode) :
    ∀ ast d, d ∈ ExpressionsSemanticsVisitor.visit tc cmp context ast →
    ∃ w, d ∈ ExpressionsSemanticsVisitor.checkForIllegalWriteInEventBinding tc cmp
            w context ∨
      d ∈ ExpressionsSemanticsVisitor.checkForIllegalWriteInTwoWayBinding tc cmp
            w context := by
  intro ast
  induction ast with
  | astWithSource inner ih =>
    intro d hd
    simp only [ExpressionsSemanticsVisitor.visit] at hd
    exact ih d hd
  | implicitReceiver =>
    intro d hd
    simp [ExpressionsSemanticsVisitor.visit] at hd
  | literalPrimitive =>
    intro d hd
    simp [ExpressionsSemanticsVisitor.visit] at hd
  | binary left right ihl ihr =>
    intro d hd
    simp only [ExpressionsSemanticsVisitor.visit, List.mem_append] at hd
    rcases hd with h | h
    · exact ihl d h
    · exact ihr d h
  | propertyRead receiver name ih =>
    intro d hd
    simp only [ExpressionsSemanticsVisitor.visit, List.mem_append] at hd
    rcases hd with h | h
    · exact ih d h
    · exact ⟨AST.propertyRead receiver name, Or.inr h⟩
  | propertyWrite receiver name value ihr ihv =>
    intro d hd
    simp only [ExpressionsSemanticsVisitor.visit, List.mem_append] at hd
    rcases hd with (h | h) | h
    · exact ihr d h
    · exact ihv d h
    · exact ⟨AST.propertyWrite receiver name value, Or.inl h⟩

/-- Every diagnostic of visitBoundEvent comes from the expression semantics
visitor run on the handler; the deprecated visitor contributes nothing. -/
theorem mem_visitBoundEvent {tc : TemplateTypeChecker} {cmp : ClassDeclaration}
    {e : TmplAstBoundEvent} {d : TemplateDiagnostic}
    (hd : d ∈ TemplateSemanticsVisitor.visitBoundEvent tc cmp e) :
    d ∈ ExpressionsSemanticsVisitor.visit tc cmp (TmplAstNode.boundEvent e)
          e.handler := by
  simpa [TemplateSemanticsVisitor.visitBoundEvent, deprecatedVisit_eq_nil] using hd

/-- Every diagnostic of a node-list walk comes from the walk of one of its
nodes. -/
theorem mem_visitNodes_ex {tc : TemplateTypeChecker} {cmp : ClassDeclaration} :
    ∀ (ns : List TmplAstNode) (d : TemplateDiagnostic),
      d ∈ TemplateSemanticsVisitor.visitNodes tc cmp ns →
      ∃ n ∈ ns, d ∈ TemplateSemanticsVisitor.visitNode tc cmp n := by
  intro ns
  induction ns with
  | nil =>
    intro d hd
    simp [TemplateSemanticsVisitor.visitNodes] at hd
  | cons n rest ih =>
    intro d hd
    simp only [TemplateSemanticsVisitor.visitNodes, List.mem_append] at hd
    rcases hd with h | h
    · exact ⟨n, List.mem_cons_self n rest, h⟩
    · obtain ⟨m, hm, hdm⟩ := ih d h
      exact ⟨m, List.mem_cons_of_mem n hm, hdm⟩

/-- Bound-attribute dispatch produces nothing: it only feeds the deprecated
visitor. -/
theorem visitBoundAttribute_eq_nil (tc : TemplateTypeChecker)
    (cmp : ClassDeclaration) (attr : TmplAstBoundAttribute) :
    TemplateSemanticsVisitor.visitBoundAttribute tc cmp attr = [] := by
  simp [TemplateSemanticsVisitor.visitBoundAttribute, deprecatedVisit_eq_nil]

/-- A walk over a list of bound attributes produces nothing. -/
theorem visitAttributes_eq_nil (tc : TemplateTypeChecker)
    (cmp : ClassDeclaration) (inputs : List TmplAstBoundAttribute) :
    TemplateSemanticsVisitor.visitAttributes tc cmp inputs = [] := by
  induction inputs with
  | nil => simp [TemplateSemanticsVisitor.visitAttributes]
  | cons a rest ih =>
    simp only [TemplateSemanticsVisitor.visitAttributes, List.map_cons,
      List.flatten_cons, visitBoundAttribute_eq_nil, List.nil_append] at *
    exact ih

/-- Every diagnostic of a walk over bound events comes from one of the
events. -/
theorem mem_visitEvents_ex {tc : TemplateTypeChecker} {cmp : ClassDeclaration}
    {outputs : List TmplAstBoundEvent} {d : TemplateDiagnostic}
    (hd : d ∈ TemplateSemanticsVisitor.visitEvents tc cmp outputs) :
    ∃ e ∈ outputs, d ∈ TemplateSemanticsVisitor.visitBoundEvent tc cmp e := by
  simp only [TemplateSemanticsVisitor.visitEvents, List.mem_flatten,
    List.mem_map] at hd
  obtain ⟨l, ⟨e, he, rfl⟩, hdl⟩ := hd
  exact ⟨e, he, hdl⟩

/-- Bounded-depth version of the walker origin lemma: every diagnostic of a
node walk comes from the bound-event dispatch of some event. -/
theorem mem_visitNode_of_le {tc : TemplateTypeChecker} {cmp : ClassDeclaration} :
    ∀ (k : Nat) (n : TmplAstNode), sizeOf n ≤ k →
      ∀ d, d ∈ TemplateSemanticsVisitor.visitNode tc cmp n →
      ∃ e, d ∈ TemplateSemanticsVisitor.visitBoundEvent tc cmp e := by
  intro k
  induction k with
  | zero =>
    intro n hn
    exact absurd hn (by cases n <;> simp)
  | succ k ih =>
    intro n hn d hd
    match n with
    | TmplAstNode.element inputs outputs children =>
      simp only [TemplateSemanticsVisitor.visitNode, visitAttributes_eq_nil,
        List.nil_append, List.mem_append] at hd
      rcases hd with h | h
      · obtain ⟨e, _, hde⟩ := mem_visitEvents_ex h
        exact ⟨e, hde⟩
      · obtain ⟨c, hc, hdc⟩ := mem_visitNodes_ex children d h
        have hcs : sizeOf c < sizeOf children := List.sizeOf_lt_of_mem hc
        have hns : sizeOf children < sizeOf (TmplAstNode.element inputs outputs children) := by
          simp
        exact ih c (by omega) d hdc
    | TmplAstNode.template inputs outputs vars children =>
      simp only [TemplateSemanticsVisitor.visitNode, visitAttributes_eq_nil,
        List.nil_append, List.mem_append] at hd
      rcases hd with h | h
      · obtain ⟨e, _, hde⟩ := mem_visitEvents_ex h
        exact ⟨e, hde⟩
      · obtain ⟨c, hc, hdc⟩ := mem_visitNodes_ex children d h
        have hcs : sizeOf c < sizeOf children := List.sizeOf_lt_of_mem hc
        have hns : sizeOf children <
            sizeOf (TmplAstNode.template inputs outputs vars children) := by
          simp
        exact ih c (by omega) d hdc
    | TmplAstNode.boundAttribute attr =>
      rw [TemplateSemanticsVisitor.visitNode, visitBoundAttribute_eq_nil] at hd
      exact absurd hd (List.not_mem_nil d)
    | TmplAstNode.boundEvent e =>
      exact ⟨e, hd⟩
    | TmplAstNode.variable v =>
      simp [TemplateSemanticsVisitor.visitNode] at hd
    | TmplAstNode.letDeclaration l =>
      simp [TemplateSemanticsVisitor.visitNode] at hd
    | TmplAstNode.text =>
      simp [TemplateSemanticsVisitor.visitNode] at hd

/-- Walker origin lemma: every diagnostic of a node walk comes from the
bound-event dispatch of some event of the tree. -/
theorem mem_visitNode {tc : TemplateTypeChecker} {cmp : ClassDeclaration}
    {n : TmplAstNode} {d : TemplateDiagnostic}
    (hd : d ∈ TemplateSemanticsVisitor.visitNode tc cmp n) :
    ∃ e, d ∈ TemplateSemanticsVisitor.visitBoundEvent tc cmp e :=
  mem_visitNode_of_le (sizeOf n) n le_rfl d hd

/-- Facade origin lemma: every diagnostic returned for a component comes
from the expression semantics visitor run on some bound event's handler with
that event as context. -/
theorem mem_getDiagnosticsForComponent {tc : TemplateTypeChecker}
    {cmp : ClassDeclaration} {d : TemplateDiagnostic}
    (hd : d ∈ TemplateSemanticsCheckerImpl.getDiagnosticsForComponent tc cmp) :
    ∃ e, d ∈ ExpressionsSemanticsVisitor.visit tc cmp (TmplAstNode.boundEvent e)
          e.handler := by
  unfold TemplateSemanticsCheckerImpl.getDiagnosticsForComponent at hd
  split at hd
  case _ nodes heq =>
    obtain ⟨n, _, hdn⟩ := mem_visitNodes_ex nodes d hd
    obtain ⟨e, hde⟩ := mem_visitNode hdn
    exact ⟨e, mem_visitBoundEvent hde⟩
  case _ => exact absurd hd (List.not_mem_nil d)

/-- Field shape of every diagnostic built by makeIllegalTemplateVarDiagnostic. -/
theorem makeIllegalTemplateVarDiagnostic_fields (cmp : ClassDeclaration)
    (target : VarOrLet) (e : TmplAstBoundEvent) (msg : String) :
    (ExpressionsSemanticsVisitor.makeIllegalTemplateVarDiagnostic cmp target e
        msg).category = DiagnosticCategory.error ∧
    (ExpressionsSemanticsVisitor.makeIllegalTemplateVarDiagnostic cmp target e
        msg).code = ngErrorCode ErrorCode.WRITE_TO_READ_ONLY_VARIABLE ∧
    (ExpressionsSemanticsVisitor.makeIllegalTemplateVarDiagnostic cmp target e
        msg).messageText = msg ∧
    (ExpressionsSemanticsVisitor.makeIllegalTemplateVarDiagnostic cmp target e
        msg).span = e.handlerSpan ∧
    (ExpressionsSemanticsVisitor.makeIllegalTemplateVarDiagnostic cmp target e
        msg).relatedInformation =
      [{ text := s!"'{target.name}' is declared here."
         start := target.declSpan.start.offset
         stop := target.declSpan.stop.offset
         sourceFile := cmp.getSourceFile }] :=
  ⟨rfl, rfl, rfl, rfl, rfl⟩

/-- C1: Rule A.  For a property write whose receiver is the implicit
receiver, checked while the enclosing context is a bound event of any kind:
when the symbol-resolution service resolves the write's target to a template
variable, exactly one diagnostic is appended, carrying the read-only-variable
message for that variable; when the target resolves to anything else (an
@let declaration, another entity, or nothing) no diagnostic is appended. -/
theorem ruleA_write_in_event_binding (tc : TemplateTypeChecker)
    (cmp : ClassDeclaration) (e : TmplAstBoundEvent) (name : String)
    (value : AST) :
    (∀ v : TmplAstVariable,
      tc.getExpressionTarget (AST.propertyWrite AST.implicitReceiver name value)
          cmp = some (TemplateEntity.variable v) →
      ExpressionsSemanticsVisitor.checkForIllegalWriteInEventBinding tc cmp
          (AST.propertyWrite AST.implicitReceiver name value)
          (TmplAstNode.boundEvent e) =
        [ExpressionsSemanticsVisitor.makeIllegalTemplateVarDiagnostic cmp
          (VarOrLet.variable v) e (ruleAErrorMessage v.name)]) ∧
    (∀ t : Option TemplateEntity,
      tc.getExpressionTarget (AST.propertyWrite AST.implicitReceiver name value)
          cmp = t →
      (∀ v : TmplAstVariable, t ≠ some (TemplateEntity.variable v)) →
      ExpressionsSemanticsVisitor.checkForIllegalWriteInEventBinding tc cmp
          (AST.propertyWrite AST.implicitReceiver name value)
          (TmplAstNode.boundEvent e) = []) := by
  constructor
  · intro v hv
    unfold ExpressionsSemanticsVisitor.checkForIllegalWriteInEventBinding
    rw [hv]
  · intro t ht hne
    unfold ExpressionsSemanticsVisitor.checkForIllegalWriteInEventBinding
    rw [ht]
    match t, hne with
    | some (TemplateEntity.variable v), hne => exact absurd rfl (hne v)
    | some (TemplateEntity.letDeclaration l), _ => rfl
    | some TemplateEntity.reference, _ => rfl
    | none, _ => rfl

/-- Witness for C1: both branches of Rule A at concrete inputs - a resolved
variable yields the single diagnostic, an unresolved target yields none. -/
theorem ruleA_write_in_event_binding_witness :
    ExpressionsSemanticsVisitor.checkForIllegalWriteInEventBinding tcVarS cmpS
        (AST.propertyWrite AST.implicitReceiver "x" AST.literalPrimitive)
        (TmplAstNode.boundEvent evtRegularS) =
      [ExpressionsSemanticsVisitor.makeIllegalTemplateVarDiagnostic cmpS
        (VarOrLet.variable varS) evtRegularS (ruleAErrorMessage varS.name)] ∧
    ExpressionsSemanticsVisitor.checkForIllegalWriteInEventBinding tcNoneS cmpS
        (AST.propertyWrite AST.implicitReceiver "x" AST.literalPrimitive)
        (TmplAstNode.boundEvent evtRegularS) = [] :=
  ⟨(ruleA_write_in_event_binding tcVarS cmpS evtRegularS "x"
      AST.literalPrimitive).1 varS (by decide),
   (ruleA_write_in_event_binding tcNoneS cmpS evtRegularS "x"
      AST.literalPrimitive).2 none (by decide) (by simp)⟩

/-- C2: Rule B trigger.  The two-way check produces a diagnostic only when
the context is a bound event of kind two-way, the checked node is a property
read off the implicit receiver, and that node equals the handler's root
expression after stripping a top-level source wrapper; consequently a read
strictly nested inside a larger handler expression never yields a
diagnostic, whatever it resolves to.  (Reference identity of the source is
rendered as structural equality; for nodes of the handler tree the two
coincide, a strict subterm being never equal to the whole tree.) -/
theorem ruleB_trigger_top_level_only :
    (∀ (tc : TemplateTypeChecker) (cmp : ClassDeclaration) (ast : AST)
        (context : TmplAstNode),
      ExpressionsSemanticsVisitor.checkForIllegalWriteInTwoWayBinding tc cmp ast
          context ≠ [] →
      ∃ e name, context = TmplAstNode.boundEvent e ∧
        e.type = ParsedEventType.TwoWay ∧
        ast = AST.propertyRead AST.implicitReceiver name ∧
        ast = unwrapAstWithSource e.handler) ∧
    (∀ (tc : TemplateTypeChecker) (cmp : ClassDeclaration)
        (e : TmplAstBoundEvent) (r : AST),
      NestedIn r (unwrapAstWithSource e.handler) →
      ExpressionsSemanticsVisitor.checkForIllegalWriteInTwoWayBinding tc cmp r
          (TmplAstNode.boundEvent e) = []) := by
  constructor
  · intro tc cmp ast context h
    unfold ExpressionsSemanticsVisitor.checkForIllegalWriteInTwoWayBinding at h
    split at h
    next e name =>
      split at h
      next hc => exact ⟨e, name, rfl, hc.1, rfl, hc.2⟩
      next => exact absurd rfl h
    next => exact absurd rfl h
  · intro tc cmp e r hnest
    have hne : r ≠ unwrapAstWithSource e.handler := hnest.ne
    unfold ExpressionsSemanticsVisitor.checkForIllegalWriteInTwoWayBinding
    split
    next e2 nm heq =>
      injection heq with heq2
      subst heq2
      rw [if_neg fun hc => hne hc.2]
    next => rfl

/-- Witness for C2: even with a service that resolves the read of x to a
non-signal template variable, a read nested under a binary expression in a
two-way handler yields no diagnostic. -/
theorem ruleB_trigger_top_level_only_witness :
    ExpressionsSemanticsVisitor.checkForIllegalWriteInTwoWayBinding tcVarS cmpS
        readXS (TmplAstNode.boundEvent evtNestedS) = [] :=
  ruleB_trigger_top_level_only.2 tcVarS cmpS evtNestedS readXS
    (Relation.TransGen.single
      (ChildOf.binaryLeft readXS AST.literalPrimitive))

/-- C3: Rule B outcome.  Once the two-way check is triggered (two-way event,
implicit-receiver read equal to the unwrapped handler root), a target that
resolves to a template variable or an @let declaration whose symbol is
classified as not reactive-capable yields exactly one diagnostic, worded for
variables resp. @let declarations; a reactive-capable (signal) target yields
none. -/
theorem ruleB_outcome (tc : TemplateTypeChecker) (cmp : ClassDeclaration)
    (e : TmplAstBoundEvent) (name : String)
    (hType : e.type = ParsedEventType.TwoWay)
    (hRoot : unwrapAstWithSource e.handler =
      AST.propertyRead AST.implicitReceiver name) :
    (∀ (v : TmplAstVariable) (symbol : TcSymbol),
      tc.getExpressionTarget (AST.propertyRead AST.implicitReceiver name) cmp =
          some (TemplateEntity.variable v) →
      tc.getSymbolOfNode (TemplateEntity.variable v) cmp = some symbol →
      (isSignalReference symbol = false →
        ExpressionsSemanticsVisitor.checkForIllegalWriteInTwoWayBinding tc cmp
            (AST.propertyRead AST.implicitReceiver name)
            (TmplAstNode.boundEvent e) =
          [ExpressionsSemanticsVisitor.makeIllegalTemplateVarDiagnostic cmp
            (VarOrLet.variable v) e (twoWayVariableErrorMessage v.name)]) ∧
      (isSignalReference symbol = true →
        ExpressionsSemanticsVisitor.checkForIllegalWriteInTwoWayBinding tc cmp
            (AST.propertyRead AST.implicitReceiver name)
            (TmplAstNode.boundEvent e) = [])) ∧
    (∀ (l : TmplAstLetDeclaration) (symbol : TcSymbol),
      tc.getExpressionTarget (AST.propertyRead AST.implicitReceiver name) cmp =
          some (TemplateEntity.letDeclaration l) →
      tc.getSymbolOfNode (TemplateEntity.letDeclaration l) cmp = some symbol →
      (isSignalReference symbol = false →
        ExpressionsSemanticsVisitor.checkForIllegalWriteInTwoWayBinding tc cmp
            (AST.propertyRead AST.implicitReceiver name)
            (TmplAstNode.boundEvent e) =
          [ExpressionsSemanticsVisitor.makeIllegalTemplateVarDiagnostic cmp
            (VarOrLet.letDecl l) e (twoWayLetErrorMessage l.name)]) ∧
      (isSignalReference symbol = true →
        ExpressionsSemanticsVisitor.checkForIllegalWriteInTwoWayBinding tc cmp
            (AST.propertyRead AST.implicitReceiver name)
            (TmplAstNode.boundEvent e) = [])) := by
  constructor
  · intro v symbol hv hs
    constructor <;> intro hsig <;>
      (unfold ExpressionsSemanticsVisitor.checkForIllegalWriteInTwoWayBinding
       split
       next e2 nm heq heq2 =>
         injection heq with h1
         subst h1
         rw [if_pos ⟨hType, hRoot.symm⟩, hv]
         simp [hs, hsig]
       next h => exact (h e name rfl rfl).elim)
  · intro l symbol hl hs
    constructor <;> intro hsig <;>
      (unfold ExpressionsSemanticsVisitor.checkForIllegalWriteInTwoWayBinding
       split
       next e2 nm heq heq2 =>
         injection heq with h1
         subst h1
         rw [if_pos ⟨hType, hRoot.symm⟩, hl]
         simp [hs, hsig]
       next h => exact (h e name rfl rfl).elim)

/-- Witness for C3: the non-signal variable target yields exactly the
variable-worded diagnostic; the signal-classified target yields none. -/
theorem ruleB_outcome_witness :
    ExpressionsSemanticsVisitor.checkForIllegalWriteInTwoWayBinding tcVarS cmpS
        (AST.propertyRead AST.implicitReceiver "x")
        (TmplAstNode.boundEvent evtTwoWayS) =
      [ExpressionsSemanticsVisitor.makeIllegalTemplateVarDiagnostic cmpS
        (VarOrLet.variable varS) evtTwoWayS
        (twoWayVariableErrorMessage varS.name)] ∧
    ExpressionsSemanticsVisitor.checkForIllegalWriteInTwoWayBinding tcSigS cmpS
        (AST.propertyRead AST.implicitReceiver "x")
        (TmplAstNode.boundEvent evtTwoWayS) = [] :=
  ⟨((ruleB_outcome tcVarS cmpS evtTwoWayS "x" (by decide) (by decide)).1 varS
      ⟨false⟩ (by decide) (by decide)).1 (by decide),
   ((ruleB_outcome tcSigS cmpS evtTwoWayS "x" (by decide) (by decide)).1 varS
      ⟨true⟩ (by decide) (by decide)).2 (by decide)⟩

/-- C4: diagnostic structure.  Every diagnostic the expression semantics
visitor emits while checking an expression against an enclosing bound event
is built by makeIllegalTemplateVarDiagnostic: severity Error, the fixed
write-to-read-only-variable code, the rule's message verbatim, primary span
equal to the event's full handler span, and exactly one related location
whose text quotes the declaration's name and whose span is the target's
declSpan - the value-initializer span when the variable has one, else the
full declaration span (an @let target carries its declaration span). -/
theorem diagnostic_structure (tc : TemplateTypeChecker) (cmp : ClassDeclaration)
    (e : TmplAstBoundEvent) (ast : AST) (d : TemplateDiagnostic)
    (hd : d ∈ ExpressionsSemanticsVisitor.visit tc cmp (TmplAstNode.boundEvent e)
            ast) :
    ∃ target msg,
      d = ExpressionsSemanticsVisitor.makeIllegalTemplateVarDiagnostic cmp target
            e msg ∧
      d.category = DiagnosticCategory.error ∧
      d.code = ngErrorCode ErrorCode.WRITE_TO_READ_ONLY_VARIABLE ∧
      d.messageText = msg ∧
      d.span = e.handlerSpan ∧
      d.relatedInformation =
        [{ text := s!"'{target.name}' is declared here."
           start := target.declSpan.start.offset
           stop := target.declSpan.stop.offset
           sourceFile := cmp.getSourceFile }] := by
  obtain ⟨w, h | h⟩ := mem_exprVisit tc cmp (TmplAstNode.boundEvent e) ast d hd
  · obtain ⟨e2, v, heq, hdq⟩ := mem_checkForIllegalWriteInEventBinding h
    injection heq with h1
    subst h1
    subst hdq
    exact ⟨VarOrLet.variable v, ruleAErrorMessage v.name, rfl, rfl, rfl, rfl,
      rfl, rfl⟩
  · obtain ⟨e2, t, msg, heq, hdq⟩ := mem_checkForIllegalWriteInTwoWayBinding h
    injection heq with h1
    subst h1
    subst hdq
    exact ⟨t, msg, rfl, rfl, rfl, rfl, rfl, rfl⟩

/-- Witness for C4: the concrete diagnostic emitted for the two-way read of
the non-signal variable x has the stated shape. -/
theorem diagnostic_structure_witness :
    ∃ target msg,
      ExpressionsSemanticsVisitor.makeIllegalTemplateVarDiagnostic cmpS
          (VarOrLet.variable varS) evtTwoWayS
          (twoWayVariableErrorMessage varS.name) =
        ExpressionsSemanticsVisitor.makeIllegalTemplateVarDiagnostic cmpS target
          evtTwoWayS msg ∧
      (ExpressionsSemanticsVisitor.makeIllegalTemplateVarDiagnostic cmpS
          (VarOrLet.variable varS) evtTwoWayS
          (twoWayVariableErrorMessage varS.name)).category =
        DiagnosticCategory.error ∧
      (ExpressionsSemanticsVisitor.makeIllegalTemplateVarDiagnostic cmpS
          (VarOrLet.variable varS) evtTwoWayS
          (twoWayVariableErrorMessage varS.name)).code =
        ngErrorCode ErrorCode.WRITE_TO_READ_ONLY_VARIABLE ∧
      (ExpressionsSemanticsVisitor.makeIllegalTemplateVarDiagnostic cmpS
          (VarOrLet.variable varS) evtTwoWayS
          (twoWayVariableErrorMessage varS.name)).messageText = msg ∧
      (ExpressionsSemanticsVisitor.makeIllegalTemplateVarDiagnostic cmpS
          (VarOrLet.variable varS) evtTwoWayS
          (twoWayVariableErrorMessage varS.name)).span = evtTwoWayS.handlerSpan ∧
      (ExpressionsSemanticsVisitor.makeIllegalTemplateVarDiagnostic cmpS
          (VarOrLet.variable varS) evtTwoWayS
          (twoWayVariableErrorMessage varS.name)).relatedInformation =
        [{ text := s!"'{target.name}' is declared here."
           start := target.declSpan.start.offset
           stop := target.declSpan.stop.offset
           sourceFile := cmpS.getSourceFile }] :=
  diagnostic_structure tcVarS cmpS evtTwoWayS evtTwoWayS.handler
    (ExpressionsSemanticsVisitor.makeIllegalTemplateVarDiagnostic cmpS
      (VarOrLet.variable varS) evtTwoWayS (twoWayVariableErrorMessage varS.name))
    (by decide)

/-- C5 counterexample: with the component class in app.ts and the violated
declaration's spans in the external template file tmpl.html, the single
related location of the emitted diagnostic is anchored to app.ts - the
component's file - and not to the file owning the declaration, refuting the
claim at this input. -/
theorem relatedInfo_declaration_file_counterexample :
    (TemplateSemanticsCheckerImpl.getDiagnosticsForComponent tcVarS cmpS).map
        (fun d => d.relatedInformation.map (fun r => r.sourceFile)) =
      [["app.ts"]] ∧
    varS.sourceSpan.start.file = "tmpl.html" ∧
    (VarOrLet.variable varS).declSpan.start.file = "tmpl.html" ∧
    ("app.ts" : String) ≠ "tmpl.html" := by
  decide

/-- C5 amended: every emitted diagnostic's single related location is
anchored to the component class's source file (the checker passes
this.component.getSourceFile()); for an inline template that coincides with
the declaration's file, but for an external template it stays the component
file even though the violated declaration lives in the template file. -/
theorem relatedInfo_anchored_to_component_file (tc : TemplateTypeChecker)
    (cmp : ClassDeclaration) (d : TemplateDiagnostic)
    (hd : d ∈ TemplateSemanticsCheckerImpl.getDiagnosticsForComponent tc cmp) :
    d.relatedInformation.map (fun r => r.sourceFile) = [cmp.getSourceFile] := by
  obtain ⟨e, hde⟩ := mem_getDiagnosticsForComponent hd
  obtain ⟨w, h | h⟩ := mem_exprVisit tc cmp (TmplAstNode.boundEvent e) e.handler
    d hde
  · obtain ⟨e2, v, heq, hdq⟩ := mem_checkForIllegalWriteInEventBinding h
    subst hdq
    rfl
  · obtain ⟨e2, t, msg, heq, hdq⟩ := mem_checkForIllegalWriteInTwoWayBinding h
    subst hdq
    rfl

/-- Witness for the amended C5 at the concrete emitted diagnostic. -/
theorem relatedInfo_anchored_to_component_file_witness :
    (ExpressionsSemanticsVisitor.makeIllegalTemplateVarDiagnostic cmpS
        (VarOrLet.variable varS) evtTwoWayS
        (twoWayVariableErrorMessage varS.name)).relatedInformation.map
      (fun r => r.sourceFile) = [cmpS.getSourceFile] :=
  relatedInfo_anchored_to_component_file tcVarS cmpS
    (ExpressionsSemanticsVisitor.makeIllegalTemplateVarDiagnostic cmpS
      (VarOrLet.variable varS) evtTwoWayS (twoWayVariableErrorMessage varS.name))
    (by decide)

/-- C6: Facade.  getDiagnosticsForComponent returns the empty list when the
service reports no template for the component, and otherwise exactly the
list accumulated by the visitor walk over the template's node sequence. -/
theorem getDiagnosticsForComponent_spec (tc : TemplateTypeChecker)
    (cmp : ClassDeclaration) :
    (tc.getTemplate cmp = none →
      TemplateSemanticsCheckerImpl.getDiagnosticsForComponent tc cmp = []) ∧
    (∀ nodes, tc.getTemplate cmp = some nodes →
      TemplateSemanticsCheckerImpl.getDiagnosticsForComponent tc cmp =
        TemplateSemanticsVisitor.visit nodes cmp tc) := by
  constructor
  · intro h
    unfold TemplateSemanticsCheckerImpl.getDiagnosticsForComponent
    rw [h]
  · intro nodes h
    unfold TemplateSemanticsCheckerImpl.getDiagnosticsForComponent
    rw [h]

/-- Witness for C6: both facade branches at concrete services. -/
theorem getDiagnosticsForComponent_spec_witness :
    TemplateSemanticsCheckerImpl.getDiagnosticsForComponent tcNoneS cmpS = [] ∧
    TemplateSemanticsCheckerImpl.getDiagnosticsForComponent tcVarS cmpS =
      TemplateSemanticsVisitor.visit [TmplAstNode.element [] [evtTwoWayS] []]
        cmpS tcVarS :=
  ⟨(getDiagnosticsForComponent_spec tcNoneS cmpS).1 rfl,
   (getDiagnosticsForComponent_spec tcVarS cmpS).2
     [TmplAstNode.element [] [evtTwoWayS] []] rfl⟩

/-- C7: fail-open resolution.  When Rule B's target resolves to a variable
or an @let declaration but the service returns no symbol for it, and when
the target does not resolve at all, the check emits nothing - the rule
yields no violation instead of aborting (the embedding is a total function,
so no invocation can throw). -/
theorem ruleB_fail_open (tc : TemplateTypeChecker) (cmp : ClassDeclaration)
    (ast : AST) (context : TmplAstNode) :
    (∀ v : TmplAstVariable,
      tc.getExpressionTarget ast cmp = some (TemplateEntity.variable v) →
      tc.getSymbolOfNode (TemplateEntity.variable v) cmp = none →
      ExpressionsSemanticsVisitor.checkForIllegalWriteInTwoWayBinding tc cmp ast
        context = []) ∧
    (∀ l : TmplAstLetDeclaration,
      tc.getExpressionTarget ast cmp = some (TemplateEntity.letDeclaration l) →
      tc.getSymbolOfNode (TemplateEntity.letDeclaration l) cmp = none →
      ExpressionsSemanticsVisitor.checkForIllegalWriteInTwoWayBinding tc cmp ast
        context = []) ∧
    (tc.getExpressionTarget ast cmp = none →
      ExpressionsSemanticsVisitor.checkForIllegalWriteInTwoWayBinding tc cmp ast
        context = []) := by
  refine ⟨?_, ?_, ?_⟩
  · intro v hv hs
    unfold ExpressionsSemanticsVisitor.checkForIllegalWriteInTwoWayBinding
    split
    · split
      · rw [hv]
        simp [hs]
      · rfl
    · rfl
  · intro l hl hs
    unfold ExpressionsSemanticsVisitor.checkForIllegalWriteInTwoWayBinding
    split
    · split
      · rw [hl]
        simp [hs]
      · rfl
    · rfl
  · intro hn
    unfold ExpressionsSemanticsVisitor.checkForIllegalWriteInTwoWayBinding
    split
    · split
      · rw [hn]
      · rfl
    · rfl

/-- Witness for C7: a resolved variable without a symbol and a fully
unresolved target both yield no diagnostic at concrete inputs. -/
theorem ruleB_fail_open_witness :
    ExpressionsSemanticsVisitor.checkForIllegalWriteInTwoWayBinding tcNoSymS cmpS
        (AST.propertyRead AST.implicitReceiver "x")
        (TmplAstNode.boundEvent evtTwoWayS) = [] ∧
    ExpressionsSemanticsVisitor.checkForIllegalWriteInTwoWayBinding tcNoneS cmpS
        (AST.propertyRead AST.implicitReceiver "x")
        (TmplAstNode.boundEvent evtTwoWayS) = [] :=
  ⟨(ruleB_fail_open tcNoSymS cmpS (AST.propertyRead AST.implicitReceiver "x")
      (TmplAstNode.boundEvent evtTwoWayS)).1 varS rfl rfl,
   (ruleB_fail_open tcNoneS cmpS (AST.propertyRead AST.implicitReceiver "x")
      (TmplAstNode.boundEvent evtTwoWayS)).2.2 rfl⟩

/-- C8: determinism.  With the resolution-service behaviour fixed (two
service instances answering identically), two runs of the checker on the
unchanged tree return identical diagnostics lists: equal as lists, hence of
the same length, with the same spans and the same messages in the same
order.  A fresh diagnostics list is allocated per run, so no state leaks
between runs. -/
theorem checker_runs_identical (tc1 tc2 : TemplateTypeChecker)
    (cmp : ClassDeclaration)
    (h1 : ∀ c, tc1.getTemplate c = tc2.getTemplate c)
    (h2 : ∀ a c, tc1.getExpressionTarget a c = tc2.getExpressionTarget a c)
    (h3 : ∀ t c, tc1.getSymbolOfNode t c = tc2.getSymbolOfNode t c) :
    TemplateSemanticsCheckerImpl.getDiagnosticsForComponent tc1 cmp =
      TemplateSemanticsCheckerImpl.getDiagnosticsForComponent tc2 cmp ∧
    (TemplateSemanticsCheckerImpl.getDiagnosticsForComponent tc1 cmp).length =
      (TemplateSemanticsCheckerImpl.getDiagnosticsForComponent tc2 cmp).length ∧
    (TemplateSemanticsCheckerImpl.getDiagnosticsForComponent tc1 cmp).map
        (fun d => d.span) =
      (TemplateSemanticsCheckerImpl.getDiagnosticsForComponent tc2 cmp).map
        (fun d => d.span) ∧
    (TemplateSemanticsCheckerImpl.getDiagnosticsForComponent tc1 cmp).map
        (fun d => d.messageText) =
      (TemplateSemanticsCheckerImpl.getDiagnosticsForComponent tc2 cmp).map
        (fun d => d.messageText) := by
  have htc : tc1 = tc2 := by
    obtain ⟨f1, g1, s1⟩ := tc1
    obtain ⟨f2, g2, s2⟩ := tc2
    simp only [TemplateTypeChecker.mk.injEq]
    exact ⟨funext h1, funext fun a => funext (h2 a),
      funext fun t => funext (h3 t)⟩
  subst htc
  exact ⟨rfl, rfl, rfl, rfl⟩

/-- Witness for C8: two runs against the same concrete service agree. -/
theorem checker_runs_identical_witness :
    TemplateSemanticsCheckerImpl.getDiagnosticsForComponent tcVarS cmpS =
      TemplateSemanticsCheckerImpl.getDiagnosticsForComponent tcVarS cmpS ∧
    (TemplateSemanticsCheckerImpl.getDiagnosticsForComponent tcVarS cmpS).length =
      (TemplateSemanticsCheckerImpl.getDiagnosticsForComponent tcVarS cmpS).length ∧
    (TemplateSemanticsCheckerImpl.getDiagnosticsForComponent tcVarS cmpS).map
        (fun d => d.span) =
      (TemplateSemanticsCheckerImpl.getDiagnosticsForComponent tcVarS cmpS).map
        (fun d => d.span) ∧
    (TemplateSemanticsCheckerImpl.getDiagnosticsForComponent tcVarS cmpS).map
        (fun d => d.messageText) =
      (TemplateSemanticsCheckerImpl.getDiagnosticsForComponent tcVarS cmpS).map
        (fun d => d.messageText) :=
  checker_runs_identical tcVarS tcVarS cmpS (fun _ => rfl) (fun _ _ => rfl)
    (fun _ _ => rfl)

/-- C9: the deprecated-usages rule's checkNode raises the explicit "not
implemented" error on every input node; it never returns successfully, in
particular never a silent empty result. -/
theorem checkNode_not_implemented :
    (∀ node : TsNode,
      DeprecatedUsagesRule.checkNode node = Except.error "not implemented") ∧
    (∀ (node : TsNode) (r : Option (List TsDiagnostic)),
      DeprecatedUsagesRule.checkNode node ≠ Except.ok r) :=
  ⟨fun _ => rfl, fun _ _ h => Except.noConfusion h⟩

/-- C10: the deprecated semantics visitor is inert - its visitAll override
does nothing, its whole traversal appends no diagnostic, so bound-attribute
dispatch yields nothing and bound-event dispatch yields exactly the
expression semantics visitor's diagnostics; and every diagnostic of the
expression semantics visitor originates from Rule A or Rule B. -/
theorem deprecated_visitor_inert :
    (∀ (asts : List AST) (context : TmplAstNode),
      DeprecatedSemanticsVisitor.visitAll asts context = []) ∧
    (∀ (context : TmplAstNode) (ast : AST),
      DeprecatedSemanticsVisitor.visit context ast = []) ∧
    (∀ (tc : TemplateTypeChecker) (cmp : ClassDeclaration)
        (attr : TmplAstBoundAttribute),
      TemplateSemanticsVisitor.visitBoundAttribute tc cmp attr = []) ∧
    (∀ (tc : TemplateTypeChecker) (cmp : ClassDeclaration)
        (e : TmplAstBoundEvent),
      TemplateSemanticsVisitor.visitBoundEvent tc cmp e =
        ExpressionsSemanticsVisitor.visit tc cmp (TmplAstNode.boundEvent e)
          e.handler) ∧
    (∀ (tc : TemplateTypeChecker) (cmp : ClassDeclaration)
        (context : TmplAstNode) (ast : AST) (d : TemplateDiagnostic),
      d ∈ ExpressionsSemanticsVisitor.visit tc cmp context ast →
      ∃ w, d ∈ ExpressionsSemanticsVisitor.checkForIllegalWriteInEventBinding tc
              cmp w context ∨
        d ∈ ExpressionsSemanticsVisitor.checkForIllegalWriteInTwoWayBinding tc
              cmp w context) :=
  ⟨fun _ _ => rfl,
   deprecatedVisit_eq_nil,
   visitBoundAttribute_eq_nil,
   fun tc cmp e => by
     simp [TemplateSemanticsVisitor.visitBoundEvent, deprecatedVisit_eq_nil],
   fun tc cmp context ast d hd => mem_exprVisit tc cmp context ast d hd⟩

/-- Witness for C10: the concrete diagnostic of the two-way example indeed
originates from one of the two rule checks. -/
theorem deprecated_visitor_inert_witness :
    ∃ w,
      ExpressionsSemanticsVisitor.makeIllegalTemplateVarDiagnostic cmpS
          (VarOrLet.variable varS) evtTwoWayS
          (twoWayVariableErrorMessage varS.name) ∈
        ExpressionsSemanticsVisitor.checkForIllegalWriteInEventBinding tcVarS
          cmpS w (TmplAstNode.boundEvent evtTwoWayS) ∨
      ExpressionsSemanticsVisitor.makeIllegalTemplateVarDiagnostic cmpS
          (VarOrLet.variable varS) evtTwoWayS
          (twoWayVariableErrorMessage varS.name) ∈
        ExpressionsSemanticsVisitor.checkForIllegalWriteInTwoWayBinding tcVarS
          cmpS w (TmplAstNode.boundEvent evtTwoWayS) :=
  deprecated_visitor_inert.2.2.2.2 tcVarS cmpS (TmplAstNode.boundEvent evtTwoWayS)
    evtTwoWayS.handler
    (ExpressionsSemanticsVisitor.makeIllegalTemplateVarDiagnostic cmpS
      (VarOrLet.variable varS) evtTwoWayS (twoWayVariableErrorMessage varS.name))
    (by decide)
